import Mathlib

/-!
Verification of the `wdlg` dialog wrapper library.

The development shallowly embeds the two Python modules `wdlg/filedialog.py`
and `wdlg/messagebox.py`.  The operating system (COM runtime, shell dialog,
TaskDialog) is modelled as an oracle (`OSModel`, `MBModel`); every call the
wrapper makes into the OS is recorded as an event in a trace, so that
resource-lifetime and call-ordering properties can be stated over the trace
while functional results are stated over the returned value.

Fallible OS calls are modelled in an `Except Unit` layer: ctypes `oledll` /
`HRESULT`-typed vtable calls raise `OSError` on failure, which the embedding
renders as `Except.error ()`.  The only fallible call the claims concern is
`IFileDialog::Show` (cancellation / failure), controlled by
`OSModel.showFails`; all other calls are modelled as succeeding.
-/

/-- COM interface families acquired by `filedialog.py`:
the dialog object, shell items, and the shell item array. -/
inductive Kind where
  | dialog
  | item
  | itemArray
  deriving DecidableEq, Repr

/-- Provenance of an acquired shell-item(-array) reference: which OS call
produced it.  `GetDisplayName` answers according to this provenance. -/
inductive RefSrc where
  | fromParsing (dir : String)
  | dlgResult
  | dlgResults
  | arrayItem (i : Nat)
  deriving DecidableEq, Repr

/-- An acquired COM interface reference: a unique numeric identity,
its interface family and its provenance. -/
structure Ref where
  id : Nat
  kind : Kind
  src : RefSrc
  deriving DecidableEq, Repr

/-- `COMDLG_FILTERSPEC` from `filedialog.py` lines 57-65: a (name, pattern)
filter entry marshalled to `SetFileTypes`. -/
structure COMDLG_FILTERSPEC where
  pszName : String
  pszSpec : String
  deriving DecidableEq, Repr

/-- `COMDLG_FILTERSPEC.from_tuple` (filedialog.py lines 63-65). -/
def COMDLG_FILTERSPEC.from_tuple (ft : String × String) : COMDLG_FILTERSPEC :=
  ⟨ft.1, ft.2⟩

/-- Events: one per OS/COM call made by `filedialog.py`, plus explicit
`acquire`/`release` markers for interface reference lifetimes. -/
inductive Ev where
  | coInit (flags : Nat)
  | coUninit
  | coCreateInstance (clsid : String) (id : Nat)
  | acquire (k : Kind) (id : Nat)
  | release (k : Kind) (id : Nat)
  | getOptions (dlg : Nat)
  | setOptions (dlg : Nat) (v : Nat)
  | shCreateItemFromParsingName (dir : String)
  | setFolder (dlg : Nat) (item : Nat)
  | setFileName (dlg : Nat) (name : String)
  | setFileTypes (dlg : Nat) (cFileTypes : Nat) (rgFilterSpec : List COMDLG_FILTERSPEC)
  | setDefaultExtension (dlg : Nat) (ext : String)
  | showDialog (dlg : Nat) (hwnd : Option Nat)
  | getResult (dlg : Nat)
  | getResults (dlg : Nat)
  | getCount (arr : Nat)
  | getItemAt (arr : Nat) (i : Nat)
  | getDisplayName (item : Nat) (sigdn : Nat)
  | coTaskMemFree
  deriving DecidableEq, Repr

/-- Constants from `filedialog.py` lines 22-37. -/
def COINIT_APARTMENTTHREADED : Nat := 0x2

def COINIT_DISABLE_OLE1DDE : Nat := 0x4

def CLSCTX_INPROC_SERVER : Nat := 0x1

def FOS_OVERWRITEPROMPT : Nat := 0x2

def FOS_PICKFOLDERS : Nat := 0x20

def FOS_ALLOWMULTISELECT : Nat := 0x200

def FOS_PATHMUSTEXIST : Nat := 0x800

def FOS_FILEMUSTEXIST : Nat := 0x1000

def SIGDN_FILESYSPATH : Nat := 0x80058000

/-- Oracle for the shell-dialog OS behaviour observed by `filedialog.py`:
the option flags `GetOptions` reports, whether `Show` raises an OS error
(the user cancelling or a failure code, both surfaced as a raised `OSError`
by ctypes), the number of items `GetCount` reports for the multi-select
result array, and the display name `GetDisplayName` returns for an item of
a given provenance. -/
structure OSModel where
  options : Nat
  showFails : Bool
  resultCount : Nat
  displayOf : RefSrc → String

/-- Mutable machine state threaded through a wrapper call: a fresh-name
counter and the pointer cells (`POINTER(IShellItem)()` CObjects) that OS
calls populate through `byref`; `none` is the NULL pointer. -/
structure St where
  ctr : Nat
  slots : Nat → Option Ref

/-- The embedding monad: a computation reads the OS oracle, transforms the
state, emits a trace of events, and either returns a value or raises
(`Except.error ()` standing for a raised `OSError`). -/
def M (α : Type) : Type :=
  OSModel → St → Except Unit α × List Ev × St

instance : Monad M where
  pure a := fun _ st => (.ok a, [], st)
  bind x f := fun os st =>
    match x os st with
    | (.ok a, t, st1) =>
        match f a os st1 with
        | (r, t2, st2) => (r, t ++ t2, st2)
    | (.error e, t, st1) => (.error e, t, st1)

/-- Record one event. -/
def emit (e : Ev) : M Unit := fun _ st => (.ok (), [e], st)

/-- `try ... except OSError: ...` around a computation: on a raised error,
run the handler from the state at the point of the raise. -/
def tryCatchOS (x : M α) (handler : M α) : M α := fun os st =>
  match x os st with
  | (.ok a, t, st1) => (.ok a, t, st1)
  | (.error _, t, st1) =>
      match handler os st1 with
      | (r, t2, st2) => (r, t ++ t2, st2)

/-- `try: body finally: fin`: the finaliser runs on every exit path; if the
body raised, the raise continues to propagate after the finaliser. -/
def withFinally (x : M α) (fin : M Unit) : M α := fun os st =>
  match x os st with
  | (.ok a, t, st1) =>
      match fin os st1 with
      | (r2, t2, st2) => (r2.map fun _ => a, t ++ t2, st2)
  | (.error e, t, st1) =>
      match fin os st1 with
      | (_, t2, st2) => (.error e, t ++ t2, st2)

/-- Allocate a NULL pointer cell (`POINTER(IShellItem)()` etc.). -/
def newSlot : M Nat := fun _ st =>
  (.ok st.ctr, [], ⟨st.ctr + 1, st.slots⟩)

/-- Read a pointer cell (truthiness test / dereference site). -/
def readSlot (s : Nat) : M (Option Ref) := fun _ st =>
  (.ok (st.slots s), [], st)

/-- An OS call that writes a freshly acquired interface reference through
`byref` into pointer cell `s`. -/
def populateSlot (s : Nat) (k : Kind) (src : RefSrc) : M Ref := fun _ st =>
  let r : Ref := ⟨st.ctr, k, src⟩
  (.ok r, [.acquire k st.ctr],
    ⟨st.ctr + 1, fun n => if n = s then some r else st.slots n⟩)

/-- `IFileOpenDialog::GetOptions` (writes the current flags through byref). -/
def mGetOptions (dlg : Nat) : M Nat := fun os st =>
  (.ok os.options, [.getOptions dlg], st)

/-- `IFileOpenDialog::SetOptions`. -/
def mSetOptions (dlg : Nat) (v : Nat) : M Unit :=
  emit (.setOptions dlg v)

/-- `SHCreateItemFromParsingName(dir, None, IID_IShellItem, byref(pitem))`. -/
def mSHCreateItemFromParsingName (dir : String) (s : Nat) : M Ref := fun _ st =>
  let r : Ref := ⟨st.ctr, .item, .fromParsing dir⟩
  (.ok r, [.shCreateItemFromParsingName dir, .acquire .item st.ctr],
    ⟨st.ctr + 1, fun n => if n = s then some r else st.slots n⟩)

/-- `IFileOpenDialog::SetFolder`. -/
def mSetFolder (dlg : Nat) (item : Ref) : M Unit :=
  emit (.setFolder dlg item.id)

/-- `IFileOpenDialog::SetFileName`. -/
def mSetFileName (dlg : Nat) (name : String) : M Unit :=
  emit (.setFileName dlg name)

/-- `IFileOpenDialog::SetFileTypes`. -/
def mSetFileTypes (dlg : Nat) (cFileTypes : Nat)
    (rgFilterSpec : List COMDLG_FILTERSPEC) : M Unit :=
  emit (.setFileTypes dlg cFileTypes rgFilterSpec)

/-- `IFileOpenDialog::SetDefaultExtension`. -/
def mSetDefaultExtension (dlg : Nat) (ext : String) : M Unit :=
  emit (.setDefaultExtension dlg ext)

/-- `IFileOpenDialog::Show(pdlg, hwnd)`: raises an `OSError` when the user
cancels or the dialog reports a failure code (`OSModel.showFails`). -/
def mShow (dlg : Nat) (hwnd : Option Nat) : M Unit := fun os st =>
  (if os.showFails then .error () else .ok (), [.showDialog dlg hwnd], st)

/-- `IFileOpenDialog::GetResult(pdlg, byref(pitem))`. -/
def mGetResult (dlg : Nat) (s : Nat) : M Ref := fun _ st =>
  let r : Ref := ⟨st.ctr, .item, .dlgResult⟩
  (.ok r, [.getResult dlg, .acquire .item st.ctr],
    ⟨st.ctr + 1, fun n => if n = s then some r else st.slots n⟩)

/-- `IFileOpenDialog::GetResults(pdlg, byref(psia))` (multi-select). -/
def mGetResults (dlg : Nat) (s : Nat) : M Ref := fun _ st =>
  let r : Ref := ⟨st.ctr, .itemArray, .dlgResults⟩
  (.ok r, [.getResults dlg, .acquire .itemArray st.ctr],
    ⟨st.ctr + 1, fun n => if n = s then some r else st.slots n⟩)

/-- `IShellItemArray::GetCount`. -/
def mGetCount (arr : Ref) : M Nat := fun os st =>
  (.ok os.resultCount, [.getCount arr.id], st)

/-- `IShellItemArray::GetItemAt(psia, i, byref(pitem))`. -/
def mGetItemAt (arr : Ref) (i : Nat) (s : Nat) : M Ref := fun _ st =>
  let r : Ref := ⟨st.ctr, .item, .arrayItem i⟩
  (.ok r, [.getItemAt arr.id i, .acquire .item st.ctr],
    ⟨st.ctr + 1, fun n => if n = s then some r else st.slots n⟩)

/-- `IShellItem::GetDisplayName(pitem, sigdn, byref(pfilepath))`; the
returned buffer contents are determined by the item's provenance. -/
def mGetDisplayName (item : Ref) (sigdn : Nat) : M String := fun os st =>
  (.ok (os.displayOf item.src), [.getDisplayName item.id sigdn], st)

/-- `CoTaskMemFree(pfilepath)`. -/
def mCoTaskMemFree : M Unit :=
  emit .coTaskMemFree

/-- `_COM` context manager (filedialog.py lines 243-249): CoInitializeEx,
yield, and CoUninitialize in a `finally`. -/
def _COM (body : M α) : M α := do
  emit (.coInit (COINIT_APARTMENTTHREADED ||| COINIT_DISABLE_OLE1DDE))
  withFinally body (emit .coUninit)

/-- `_get_pIFileOpenDialog` (lines 252-265): CoCreateInstance the dialog,
yield it, unconditionally Release it in a `finally`. -/
def _get_pIFileOpenDialog (body : Nat → M α) : M α := fun os st =>
  let d := st.ctr
  (do
    emit (.coCreateInstance "FileOpenDialog" d)
    emit (.acquire .dialog d)
    withFinally (body d) (emit (.release .dialog d))) os ⟨st.ctr + 1, st.slots⟩

/-- `_get_pIFileSaveDialog` (lines 268-281): same shape for the save dialog. -/
def _get_pIFileSaveDialog (body : Nat → M α) : M α := fun os st =>
  let d := st.ctr
  (do
    emit (.coCreateInstance "FileSaveDialog" d)
    emit (.acquire .dialog d)
    withFinally (body d) (emit (.release .dialog d))) os ⟨st.ctr + 1, st.slots⟩

/-- `_get_pIShellItem` (lines 284-292): yield a NULL `POINTER(IShellItem)`
cell; in the `finally`, Release only if the pointer was populated. -/
def _get_pIShellItem (body : Nat → M α) : M α := do
  let s ← newSlot
  withFinally (body s) (do
    let p ← readSlot s
    match p with
    | some r => emit (.release r.kind r.id)
    | none => pure ())

/-- `_get_pIShellItemArray` (lines 295-302): same null-checked guard for the
result array pointer. -/
def _get_pIShellItemArray (body : Nat → M α) : M α := do
  let s ← newSlot
  withFinally (body s) (do
    let p ← readSlot s
    match p with
    | some r => emit (.release r.kind r.id)
    | none => pure ())

/-- Python truthiness of an optional string argument (`if initialdir:`):
false for `None` and for the empty string. -/
def strTruthy : Option String → Bool
  | none => false
  | some s => !s.isEmpty

/-- The `rgSpec` array built by the marshalling loop
`for i, ft in enumerate(filetypes): rgSpec[i] = COMDLG_FILTERSPEC.from_tuple(ft)`. -/
def marshalFiletypes (fts : List (String × String)) : List COMDLG_FILTERSPEC :=
  fts.map COMDLG_FILTERSPEC.from_tuple

/-- `askdirectory` (filedialog.py lines 305-342). -/
def askdirectory (hwnd : Option Nat) (initialdir : Option String) :
    M (Option String) :=
  _COM <| _get_pIFileOpenDialog fun pdlg => do
    let options ← mGetOptions pdlg
    mSetOptions pdlg (options ||| FOS_PICKFOLDERS)
    let _ ← (if strTruthy initialdir then
        _get_pIShellItem fun s => do
          let pitem ← mSHCreateItemFromParsingName (initialdir.getD "") s
          mSetFolder pdlg pitem
      else pure ())
    let shown ← tryCatchOS (do mShow pdlg hwnd; pure true) (pure false)
    if shown then
      _get_pIShellItem fun s => do
        let pitem ← mGetResult pdlg s
        let pfilepath ← mGetDisplayName pitem SIGDN_FILESYSPATH
        mCoTaskMemFree
        pure (some pfilepath)
    else pure none

/-- `askopenfilename` (filedialog.py lines 345-393). -/
def askopenfilename (hwnd : Option Nat) (initialdir initialfile : Option String)
    (filetypes : List (String × String)) : M (Option String) :=
  _COM <| _get_pIFileOpenDialog fun pdlg => do
    let _ ← (if strTruthy initialdir then
        _get_pIShellItem fun s => do
          let pitem ← mSHCreateItemFromParsingName (initialdir.getD "") s
          mSetFolder pdlg pitem
      else pure ())
    let _ ← (if strTruthy initialfile then
        mSetFileName pdlg (initialfile.getD "")
      else pure ())
    let _ ← (if filetypes.isEmpty then pure ()
      else do
        mSetFileTypes pdlg filetypes.length (marshalFiletypes filetypes)
        mSetDefaultExtension pdlg "")
    let shown ← tryCatchOS (do mShow pdlg hwnd; pure true) (pure false)
    if shown then
      _get_pIShellItem fun s => do
        let pitem ← mGetResult pdlg s
        let pfilepath ← mGetDisplayName pitem SIGDN_FILESYSPATH
        mCoTaskMemFree
        pure (some pfilepath)
    else pure none

/-- The `ret = []; for i in range(count.value): ...` collection loop of
`askopenfilenames` (lines 446-455): each iteration opens a shell-item scope,
GetItemAt, GetDisplayName, appends the copied string, CoTaskMemFree. -/
def collectLoop (psia : Ref) : List Nat → List String → M (List String)
  | [], ret => pure ret
  | i :: rest, ret => do
      let p ← _get_pIShellItem fun s => do
        let pitem ← mGetItemAt psia i s
        let p_path ← mGetDisplayName pitem SIGDN_FILESYSPATH
        mCoTaskMemFree
        pure p_path
      collectLoop psia rest (ret ++ [p])

/-- `askopenfilenames` (filedialog.py lines 396-456). -/
def askopenfilenames (hwnd : Option Nat) (initialdir initialfile : Option String)
    (filetypes : List (String × String)) : M (Option (List String)) :=
  _COM <| _get_pIFileOpenDialog fun pdlg => do
    let options ← mGetOptions pdlg
    mSetOptions pdlg (options ||| FOS_ALLOWMULTISELECT)
    let _ ← (if strTruthy initialdir then
        _get_pIShellItem fun s => do
          let pitem ← mSHCreateItemFromParsingName (initialdir.getD "") s
          mSetFolder pdlg pitem
      else pure ())
    let _ ← (if strTruthy initialfile then
        mSetFileName pdlg (initialfile.getD "")
      else pure ())
    let _ ← (if filetypes.isEmpty then pure ()
      else do
        mSetFileTypes pdlg filetypes.length (marshalFiletypes filetypes)
        mSetDefaultExtension pdlg "")
    let shown ← tryCatchOS (do mShow pdlg hwnd; pure true) (pure false)
    if shown then
      _get_pIShellItemArray fun s => do
        let psia ← mGetResults pdlg s
        let count ← mGetCount psia
        let ret ← collectLoop psia (List.range count) []
        pure (some ret)
    else pure none

/-- `asksaveasfilename` (filedialog.py lines 459-507). -/
def asksaveasfilename (hwnd : Option Nat) (initialdir initialfile : Option String)
    (filetypes : List (String × String)) : M (Option String) :=
  _COM <| _get_pIFileSaveDialog fun pdlg => do
    let _ ← (if strTruthy initialdir then
        _get_pIShellItem fun s => do
          let pitem ← mSHCreateItemFromParsingName (initialdir.getD "") s
          mSetFolder pdlg pitem
      else pure ())
    let _ ← (if strTruthy initialfile then
        mSetFileName pdlg (initialfile.getD "")
      else pure ())
    let _ ← (if filetypes.isEmpty then pure ()
      else do
        mSetFileTypes pdlg filetypes.length (marshalFiletypes filetypes)
        mSetDefaultExtension pdlg "")
    let shown ← tryCatchOS (do mShow pdlg hwnd; pure true) (pure false)
    if shown then
      _get_pIShellItem fun s => do
        let pItem ← mGetResult pdlg s
        let pfilepath ← mGetDisplayName pItem SIGDN_FILESYSPATH
        mCoTaskMemFree
        pure (some pfilepath)
    else pure none

/-!
Expected call sequences (the "fixed series of COM calls" of the spec):
initialize COM, create the dialog instance, configure options, show the
dialog, extract the result, release the interfaces.  These are stated with
the concrete reference identities the embedding assigns when a wrapper
function is entered with a fresh counter.
-/

/-- Step 1: initialize COM. -/
def comInitStep : List Ev :=
  [.coInit (COINIT_APARTMENTTHREADED ||| COINIT_DISABLE_OLE1DDE)]

/-- Step 2: create the dialog instance (always reference 0). -/
def createDialogStep (clsid : String) : List Ev :=
  [.coCreateInstance clsid 0, .acquire .dialog 0]

/-- Configure sub-step: parse `initialdir` into a shell item and SetFolder,
inside a shell-item scope entered with counter `c`. -/
def setFolderStep (dir : String) (c : Nat) : List Ev :=
  [.shCreateItemFromParsingName dir, .acquire .item (c + 1),
   .setFolder 0 (c + 1), .release .item (c + 1)]

/-- Configure sub-steps shared by the three file-name dialogs:
folder, file name, file types. -/
def configFileSeq (initialdir initialfile : Option String)
    (filetypes : List (String × String)) : List Ev :=
  (if strTruthy initialdir then setFolderStep (initialdir.getD "") 1 else [])
  ++ (if strTruthy initialfile then [.setFileName 0 (initialfile.getD "")] else [])
  ++ (if filetypes.isEmpty then []
      else [.setFileTypes 0 filetypes.length (marshalFiletypes filetypes),
            .setDefaultExtension 0 ""])

/-- Step 4: show the dialog. -/
def showStep (hwnd : Option Nat) : List Ev :=
  [.showDialog 0 hwnd]

/-- Step 5 (single select): extract the result item and copy its display
name, inside a shell-item scope entered with counter `c`. -/
def extractResultStep (c : Nat) : List Ev :=
  [.getResult 0, .acquire .item (c + 1),
   .getDisplayName (c + 1) SIGDN_FILESYSPATH, .coTaskMemFree,
   .release .item (c + 1)]

/-- Per-index trace of the multi-select collection loop: iteration for index
`i` entered with counter `c` acquires item `c+1`, copies its name, frees the
buffer and releases the item. -/
def loopTrace (arr : Nat) : Nat → List Nat → List Ev
  | _, [] => []
  | c, i :: rest =>
      [.getItemAt arr i, .acquire .item (c + 1),
       .getDisplayName (c + 1) SIGDN_FILESYSPATH, .coTaskMemFree,
       .release .item (c + 1)]
      ++ loopTrace arr (c + 2) rest

/-- Step 5 (multi select): extract the result array and loop over its `n`
items, the array scope entered with counter `c`. -/
def extractResultsStep (c : Nat) (n : Nat) : List Ev :=
  [.getResults 0, .acquire .itemArray (c + 1), .getCount (c + 1)]
  ++ loopTrace (c + 1) (c + 2) (List.range n)
  ++ [.release .itemArray (c + 1)]

/-- Step 6: release the dialog interface. -/
def releaseDialogStep : List Ev :=
  [.release .dialog 0]

/-- Step 7: uninitialize COM. -/
def comUninitStep : List Ev :=
  [.coUninit]

/-- The fixed call sequence of `askdirectory`. -/
def askdirectorySeq (hwnd : Option Nat) (initialdir : Option String)
    (os : OSModel) : List Ev :=
  comInitStep
  ++ createDialogStep "FileOpenDialog"
  ++ ([.getOptions 0, .setOptions 0 (os.options ||| FOS_PICKFOLDERS)]
      ++ (if strTruthy initialdir then setFolderStep (initialdir.getD "") 1 else []))
  ++ showStep hwnd
  ++ (if os.showFails then []
      else extractResultStep (if strTruthy initialdir then 3 else 1))
  ++ releaseDialogStep
  ++ comUninitStep

/-- The fixed call sequence of `askopenfilename`. -/
def askopenfilenameSeq (hwnd : Option Nat) (initialdir initialfile : Option String)
    (filetypes : List (String × String)) (os : OSModel) : List Ev :=
  comInitStep
  ++ createDialogStep "FileOpenDialog"
  ++ configFileSeq initialdir initialfile filetypes
  ++ showStep hwnd
  ++ (if os.showFails then []
      else extractResultStep (if strTruthy initialdir then 3 else 1))
  ++ releaseDialogStep
  ++ comUninitStep

/-- The fixed call sequence of `askopenfilenames`. -/
def askopenfilenamesSeq (hwnd : Option Nat) (initialdir initialfile : Option String)
    (filetypes : List (String × String)) (os : OSModel) : List Ev :=
  comInitStep
  ++ createDialogStep "FileOpenDialog"
  ++ ([.getOptions 0, .setOptions 0 (os.options ||| FOS_ALLOWMULTISELECT)]
      ++ configFileSeq initialdir initialfile filetypes)
  ++ showStep hwnd
  ++ (if os.showFails then []
      else extractResultsStep (if strTruthy initialdir then 3 else 1) os.resultCount)
  ++ releaseDialogStep
  ++ comUninitStep

/-- The fixed call sequence of `asksaveasfilename`. -/
def asksaveasfilenameSeq (hwnd : Option Nat) (initialdir initialfile : Option String)
    (filetypes : List (String × String)) (os : OSModel) : List Ev :=
  comInitStep
  ++ createDialogStep "FileSaveDialog"
  ++ configFileSeq initialdir initialfile filetypes
  ++ showStep hwnd
  ++ (if os.showFails then []
      else extractResultStep (if strTruthy initialdir then 3 else 1))
  ++ releaseDialogStep
  ++ comUninitStep

/-- The interface references acquired in a trace, in order. -/
def acquires : List Ev → List (Kind × Nat)
  | [] => []
  | .acquire k i :: t => (k, i) :: acquires t
  | _ :: t => acquires t

/-- The interface references released in a trace, in order. -/
def releases : List Ev → List (Kind × Nat)
  | [] => []
  | .release k i :: t => (k, i) :: releases t
  | _ :: t => releases t

/-- Resource correctness of one wrapper call: every acquired interface
reference is released exactly once and nothing else is released (the
released references are a permutation of the acquired ones, which are
pairwise distinct), COM is initialized exactly once and uninitialized
exactly once. -/
abbrev releasedOnce (t : List Ev) : Prop :=
  (releases t).Perm (acquires t) ∧ (acquires t).Nodup ∧
  t.count (Ev.coInit (COINIT_APARTMENTTHREADED ||| COINIT_DISABLE_OLE1DDE)) = 1 ∧
  t.count Ev.coUninit = 1

/-- The `SetFileTypes` invocations in a trace: (count, marshalled array). -/
def setFileTypeEvents : List Ev → List (Nat × List COMDLG_FILTERSPEC)
  | [] => []
  | .setFileTypes _ n specs :: t => (n, specs) :: setFileTypeEvents t
  | _ :: t => setFileTypeEvents t

/-- Run characterization: from any pointer store, computation `x` starting
at counter `c` returns `r`, emits trace `t`, advances the counter to `c2`,
and writes no pointer cell that existed on entry. -/
def RunsC (x : M α) (os : OSModel) (c : Nat) (r : Except Unit α)
    (t : List Ev) (c2 : Nat) : Prop :=
  ∀ sl : Nat → Option Ref, ∃ f, x os ⟨c, sl⟩ = (r, t, ⟨c2, f⟩)
    ∧ c ≤ c2 ∧ ∀ n, n < c → f n = sl n

/-!
Embedding of `wdlg/messagebox.py`.  Python is dynamically typed and the
wrapper arguments (window handles, strings, None) are passed positionally,
so arguments are modelled with a small dynamic value type.
-/

/-- A Python argument value as passed to the messagebox wrappers. -/
inductive PyVal where
  | vnone
  | vint (n : Int)
  | vstr (s : String)
  deriving DecidableEq, Repr

/-- The single OS call `messagebox.py` makes: `comctl32.TaskDialog` with its
seven input parameters (the eighth is the `byref(pnButton)` out-parameter). -/
inductive MBEv where
  | taskDialogCall (hwndOwner hInstance pszWindowTitle pszMainInstruction
      pszContent : PyVal) (dwCommonButtons : Int) (pszIcon : PyVal)
  deriving DecidableEq, Repr

/-- Oracle for `TaskDialog`: whether the call reports a failing HRESULT
(raised as `OSError` by ctypes `oledll`), and otherwise the button id the OS
writes through the `pnButton` out-parameter. -/
structure MBModel where
  fails : Bool
  button : Int

/-- `taskdialog` (messagebox.py lines 34-117): one `TaskDialog` call, the
out-parameter value is returned. -/
def taskdialog (os : MBModel)
    (hwndOwner hInstance pszWindowTitle pszMainInstruction pszContent : PyVal)
    (dwCommonButtons : Int) (pszIcon : PyVal) : Except Unit Int × List MBEv :=
  (if os.fails then .error () else .ok os.button,
   [.taskDialogCall hwndOwner hInstance pszWindowTitle pszMainInstruction
      pszContent dwCommonButtons pszIcon])

/-- `askokcancel` (messagebox.py lines 174-197): OK/Cancel buttons with the
question icon; true exactly on `IDOK`. -/
def askokcancel (os : MBModel) (hwnd title main_msg message : PyVal) :
    Except Unit Bool × List MBEv :=
  let (ret, t) := taskdialog os hwnd .vnone title main_msg message 0x09 (.vint 32514)
  (ret.map fun r => if r = 0x01 then true else false, t)

/-- `askquestion` (messagebox.py lines 200-221): Yes/No buttons with the
question icon; true exactly on `IDYES`. -/
def askquestion (os : MBModel) (hwnd title main_msg message : PyVal) :
    Except Unit Bool × List MBEv :=
  let (ret, t) := taskdialog os hwnd .vnone title main_msg message 0x06 (.vint 32514)
  (ret.map fun r => if r = 0x06 then true else false, t)

/-- `askyesno` (messagebox.py lines 248-265): delegates to `askquestion`,
passing its arguments in the order written in the source,
`askquestion(title, main_msg, message, hwnd)`. -/
def askyesno (os : MBModel) (hwnd title main_msg message : PyVal) :
    Except Unit Bool × List MBEv :=
  askquestion os title main_msg message hwnd

/-- `askyesnocancel` (messagebox.py lines 268-293): Yes/No/Cancel buttons;
true on `IDYES`, false on `IDNO`, `None` on any other reported code. -/
def askyesnocancel (os : MBModel) (hwnd title main_msg message : PyVal) :
    Except Unit (Option Bool) × List MBEv :=
  let (ret, t) := taskdialog os hwnd .vnone title main_msg message 0x0E (.vint 0xFFFF)
  (ret.map fun r =>
    if r = 0x06 then some true
    else if r = 0x07 then some false
    else none, t)

/-- A concrete shell-dialog oracle used by the witness statements. -/
def osW : OSModel :=
  { options := 0x1808, showFails := false, resultCount := 2,
    displayOf := fun src => match src with
      | .dlgResult => "C:\\picked"
      | .arrayItem i => "C:\\multi" ++ toString i
      | _ => "" }

/-- The references acquired (and released) by the multi-select loop entered
with counter `c`: one item per index, ids `c+1, c+3, ...`. -/
def loopRefs (c : Nat) : List Nat → List (Kind × Nat)
  | [] => []
  | _ :: rest => (Kind.item, c + 1) :: loopRefs (c + 2) rest

/-- A concrete shell-dialog oracle whose `Show` raises (cancel). -/
def osCancel : OSModel :=
  { options := 0x1808, showFails := true, resultCount := 0,
    displayOf := fun _ => "" }

/-!
Run-characterization lemmas: how each operation and scope combinator runs.
-/

theorem bind_apply {α β} (x : M α) (g : α → M β) (os : OSModel) (st : St) :
    (x >>= g) os st =
      match x os st with
      | (.ok a, t, st1) =>
          match g a os st1 with
          | (r, t2, st2) => (r, t ++ t2, st2)
      | (.error e, t, st1) => (.error e, t, st1) := rfl

theorem RunsC.congr {α} {x : M α} {os : OSModel} {c : Nat} {r r2 : Except Unit α}
    {t t2 : List Ev} {c2 c3 : Nat}
    (h : RunsC x os c r t c2) (hr : r = r2) (ht : t = t2) (hc : c2 = c3) :
    RunsC x os c r2 t2 c3 := by
  subst hr; subst ht; subst hc; exact h

theorem RunsC.bind {α β} {x : M α} {g : α → M β} {os : OSModel} {c : Nat}
    {a : α} {t1 : List Ev} {c1 : Nat} {r2 : Except Unit β} {t2 : List Ev} {c2 : Nat}
    (hx : RunsC x os c (.ok a) t1 c1) (hg : RunsC (g a) os c1 r2 t2 c2) :
    RunsC (x >>= g) os c r2 (t1 ++ t2) c2 := by
  intro sl
  obtain ⟨f1, h1, hc1, hp1⟩ := hx sl
  obtain ⟨f2, h2, hc2, hp2⟩ := hg f1
  refine ⟨f2, ?_, le_trans hc1 hc2, fun n hn => ?_⟩
  · rw [bind_apply, h1]
    show (match g a os ⟨c1, f1⟩ with | (r, t2, st2) => (r, t1 ++ t2, st2)) = _
    rw [h2]
  · rw [hp2 n (lt_of_lt_of_le hn hc1), hp1 n hn]

theorem runsC_pure {α} (a : α) (os : OSModel) (c : Nat) :
    RunsC (pure a) os c (.ok a) [] c :=
  fun sl => ⟨sl, rfl, le_refl c, fun _ _ => rfl⟩

theorem runsC_emit (e : Ev) (os : OSModel) (c : Nat) :
    RunsC (emit e) os c (.ok ()) [e] c :=
  fun sl => ⟨sl, rfl, le_refl c, fun _ _ => rfl⟩

theorem runsC_mGetOptions (dlg : Nat) (os : OSModel) (c : Nat) :
    RunsC (mGetOptions dlg) os c (.ok os.options) [.getOptions dlg] c :=
  fun sl => ⟨sl, rfl, le_refl c, fun _ _ => rfl⟩

theorem runsC_mSetOptions (dlg v : Nat) (os : OSModel) (c : Nat) :
    RunsC (mSetOptions dlg v) os c (.ok ()) [.setOptions dlg v] c :=
  fun sl => ⟨sl, rfl, le_refl c, fun _ _ => rfl⟩

theorem runsC_mSetFileName (dlg : Nat) (name : String) (os : OSModel) (c : Nat) :
    RunsC (mSetFileName dlg name) os c (.ok ()) [.setFileName dlg name] c :=
  fun sl => ⟨sl, rfl, le_refl c, fun _ _ => rfl⟩

theorem runsC_mSetFileTypes (dlg n : Nat) (specs : List COMDLG_FILTERSPEC)
    (os : OSModel) (c : Nat) :
    RunsC (mSetFileTypes dlg n specs) os c (.ok ()) [.setFileTypes dlg n specs] c :=
  fun sl => ⟨sl, rfl, le_refl c, fun _ _ => rfl⟩

theorem runsC_mSetDefaultExtension (dlg : Nat) (ext : String) (os : OSModel) (c : Nat) :
    RunsC (mSetDefaultExtension dlg ext) os c (.ok ()) [.setDefaultExtension dlg ext] c :=
  fun sl => ⟨sl, rfl, le_refl c, fun _ _ => rfl⟩

theorem runsC_mCoTaskMemFree (os : OSModel) (c : Nat) :
    RunsC mCoTaskMemFree os c (.ok ()) [.coTaskMemFree] c :=
  fun sl => ⟨sl, rfl, le_refl c, fun _ _ => rfl⟩

theorem runsC_tryShow_ok (pdlg : Nat) (hwnd : Option Nat) (os : OSModel) (c : Nat)
    (h : os.showFails = false) :
    RunsC (tryCatchOS (do mShow pdlg hwnd; pure true) (pure false)) os c
      (.ok true) [.showDialog pdlg hwnd] c := by
  intro sl
  refine ⟨sl, ?_, le_refl c, fun _ _ => rfl⟩
  show tryCatchOS _ _ os ⟨c, sl⟩ = _
  simp only [tryCatchOS, bind_apply, mShow, h, if_false, Bool.false_eq_true]
  rfl

theorem runsC_tryShow_fail (pdlg : Nat) (hwnd : Option Nat) (os : OSModel) (c : Nat)
    (h : os.showFails = true) :
    RunsC (tryCatchOS (do mShow pdlg hwnd; pure true) (pure false)) os c
      (.ok false) [.showDialog pdlg hwnd] c := by
  intro sl
  refine ⟨sl, ?_, le_refl c, fun _ _ => rfl⟩
  show tryCatchOS _ _ os ⟨c, sl⟩ = _
  simp only [tryCatchOS, bind_apply, mShow, h, if_true]
  rfl

theorem runsC_COM {α} {body : M α} {os : OSModel} {c : Nat} {r : Except Unit α}
    {t : List Ev} {c1 : Nat} (hb : RunsC body os c r t c1) :
    RunsC (_COM body) os c r
      ([.coInit (COINIT_APARTMENTTHREADED ||| COINIT_DISABLE_OLE1DDE)] ++ t
        ++ [.coUninit]) c1 := by
  intro sl
  obtain ⟨f1, h1, hc1, hp1⟩ := hb sl
  refine ⟨f1, ?_, hc1, hp1⟩
  show (emit _ >>= fun _ => withFinally body (emit .coUninit)) os ⟨c, sl⟩ = _
  rw [bind_apply]
  show (match withFinally body (emit .coUninit) os ⟨c, sl⟩ with
        | (r2, t2, st2) => (r2, [Ev.coInit (COINIT_APARTMENTTHREADED ||| COINIT_DISABLE_OLE1DDE)] ++ t2, st2)) = _
  unfold withFinally
  rw [h1]
  cases r with
  | ok a => rfl
  | error e => rfl

theorem newSlot_apply (os : OSModel) (st : St) :
    newSlot os st = (.ok st.ctr, [], ⟨st.ctr + 1, st.slots⟩) := rfl

theorem readSlot_apply (s : Nat) (os : OSModel) (st : St) :
    readSlot s os st = (.ok (st.slots s), [], st) := rfl

theorem emit_apply (e : Ev) (os : OSModel) (st : St) :
    emit e os st = (.ok (), [e], st) := rfl

theorem pure_apply {α} (a : α) (os : OSModel) (st : St) :
    (pure a : M α) os st = (.ok a, [], st) := rfl

theorem withFinally_apply {α} (x : M α) (fin : M Unit) (os : OSModel) (st : St) :
    withFinally x fin os st =
      match x os st with
      | (.ok a, t, st1) =>
          match fin os st1 with
          | (r2, t2, st2) => (r2.map fun _ => a, t ++ t2, st2)
      | (.error e, t, st1) =>
          match fin os st1 with
          | (_, t2, st2) => (.error e, t ++ t2, st2) := rfl

theorem runsC_getPIFileOpenDialog {α} {body : Nat → M α} {os : OSModel} {c : Nat}
    {r : Except Unit α} {t : List Ev} {c1 : Nat}
    (hb : RunsC (body c) os (c + 1) r t c1) :
    RunsC (_get_pIFileOpenDialog body) os c r
      ([.coCreateInstance "FileOpenDialog" c, .acquire .dialog c] ++ t
        ++ [.release .dialog c]) c1 := by
  intro sl
  obtain ⟨f1, h1, hc1, hp1⟩ := hb sl
  refine ⟨f1, ?_, by omega, fun n hn => hp1 n (by omega)⟩
  show (do
    emit (.coCreateInstance "FileOpenDialog" c)
    emit (.acquire .dialog c)
    withFinally (body c) (emit (.release .dialog c))) os ⟨c + 1, sl⟩ = _
  simp only [bind_apply, emit_apply, withFinally_apply, h1]
  cases r with
  | ok a => rfl
  | error e => rfl

theorem runsC_getPIFileSaveDialog {α} {body : Nat → M α} {os : OSModel} {c : Nat}
    {r : Except Unit α} {t : List Ev} {c1 : Nat}
    (hb : RunsC (body c) os (c + 1) r t c1) :
    RunsC (_get_pIFileSaveDialog body) os c r
      ([.coCreateInstance "FileSaveDialog" c, .acquire .dialog c] ++ t
        ++ [.release .dialog c]) c1 := by
  intro sl
  obtain ⟨f1, h1, hc1, hp1⟩ := hb sl
  refine ⟨f1, ?_, by omega, fun n hn => hp1 n (by omega)⟩
  show (do
    emit (.coCreateInstance "FileSaveDialog" c)
    emit (.acquire .dialog c)
    withFinally (body c) (emit (.release .dialog c))) os ⟨c + 1, sl⟩ = _
  simp only [bind_apply, emit_apply, withFinally_apply, h1]
  cases r with
  | ok a => rfl
  | error e => rfl

/-- A shell-item scope whose body populates the pointer cell with reference
`rf`: the scope appends exactly one Release of `rf` to the body's trace. -/
theorem runsC_itemScope_populated {α} {body : Nat → M α} {os : OSModel} {c : Nat}
    {r : Except Unit α} {t : List Ev} {c1 : Nat} (rf : Ref)
    (hb : ∀ sl : Nat → Option Ref, ∃ f, body c os ⟨c + 1, sl⟩ = (r, t, ⟨c1, f⟩)
      ∧ c + 1 ≤ c1 ∧ f c = some rf ∧ ∀ n, n < c → f n = sl n) :
    RunsC (_get_pIShellItem body) os c r (t ++ [.release rf.kind rf.id]) c1 := by
  intro sl
  obtain ⟨f, h1, hc, hslot, hpres⟩ := hb sl
  refine ⟨f, ?_, by omega, hpres⟩
  show (do
    let s ← newSlot
    withFinally (body s) (do
      let p ← readSlot s
      match p with
      | some r2 => emit (.release r2.kind r2.id)
      | none => pure ())) os ⟨c, sl⟩ = _
  cases r with
  | ok a =>
      simp only [bind_apply, newSlot_apply, withFinally_apply, readSlot_apply,
        emit_apply, pure_apply, h1, hslot, Except.map, List.nil_append,
        List.append_nil]
  | error e =>
      simp only [bind_apply, newSlot_apply, withFinally_apply, readSlot_apply,
        emit_apply, pure_apply, h1, hslot, Except.map, List.nil_append,
        List.append_nil]

theorem arrayScope_eq_itemScope {α} :
    @_get_pIShellItemArray α = @_get_pIShellItem α := rfl

/-- The `initialdir` configure block: parse the directory into a shell item,
SetFolder, then the scope releases the parsed item. -/
theorem runsC_setFolderBlock (pdlg : Nat) (dir : String) (os : OSModel) (c : Nat) :
    RunsC (_get_pIShellItem fun s => do
        let pitem ← mSHCreateItemFromParsingName dir s
        mSetFolder pdlg pitem) os c (.ok ())
      ([.shCreateItemFromParsingName dir, .acquire .item (c + 1),
        .setFolder pdlg (c + 1)] ++ [.release .item (c + 1)]) (c + 2) := by
  apply runsC_itemScope_populated ⟨c + 1, .item, .fromParsing dir⟩
  intro sl
  refine ⟨fun n => if n = c then some ⟨c + 1, .item, .fromParsing dir⟩ else sl n,
    rfl, by omega, by simp, fun n hn => by simp [Nat.ne_of_lt hn]⟩

/-- The single-select result extraction block: GetResult, GetDisplayName,
copy the buffer, CoTaskMemFree, then the scope releases the result item. -/
theorem runsC_extractBlock (pdlg : Nat) (os : OSModel) (c : Nat) :
    RunsC (_get_pIShellItem fun s => do
        let pitem ← mGetResult pdlg s
        let pfilepath ← mGetDisplayName pitem SIGDN_FILESYSPATH
        mCoTaskMemFree
        pure (some pfilepath)) os c
      (.ok (some (os.displayOf .dlgResult)))
      ([.getResult pdlg, .acquire .item (c + 1),
        .getDisplayName (c + 1) SIGDN_FILESYSPATH, .coTaskMemFree]
        ++ [.release .item (c + 1)]) (c + 2) := by
  apply runsC_itemScope_populated ⟨c + 1, .item, .dlgResult⟩
  intro sl
  refine ⟨fun n => if n = c then some ⟨c + 1, .item, .dlgResult⟩ else sl n,
    rfl, by omega, by simp, fun n hn => by simp [Nat.ne_of_lt hn]⟩

/-- One iteration of the multi-select loop: GetItemAt, GetDisplayName, copy,
CoTaskMemFree, then the scope releases the item. -/
theorem runsC_itemAtBlock (a : Ref) (i : Nat) (os : OSModel) (c : Nat) :
    RunsC (_get_pIShellItem fun s => do
        let pitem ← mGetItemAt a i s
        let p_path ← mGetDisplayName pitem SIGDN_FILESYSPATH
        mCoTaskMemFree
        pure p_path) os c
      (.ok (os.displayOf (.arrayItem i)))
      ([.getItemAt a.id i, .acquire .item (c + 1),
        .getDisplayName (c + 1) SIGDN_FILESYSPATH, .coTaskMemFree]
        ++ [.release .item (c + 1)]) (c + 2) := by
  apply runsC_itemScope_populated ⟨c + 1, .item, .arrayItem i⟩
  intro sl
  refine ⟨fun n => if n = c then some ⟨c + 1, .item, .arrayItem i⟩ else sl n,
    rfl, by omega, by simp, fun n hn => by simp [Nat.ne_of_lt hn]⟩

/-- The multi-select collection loop: appends the display name of item `i`
for each index, each iteration consuming two fresh identities. -/
theorem runsC_collectLoop (a : Ref) (os : OSModel) (l : List Nat) :
    ∀ (ret : List String) (c : Nat),
    RunsC (collectLoop a l ret) os c
      (.ok (ret ++ l.map fun i => os.displayOf (.arrayItem i)))
      (loopTrace a.id c l) (c + 2 * l.length) := by
  induction l with
  | nil =>
      intro ret c
      refine RunsC.congr (runsC_pure ret os c) ?_ ?_ ?_
      · simp
      · simp [loopTrace]
      · simp
  | cons i rest ih =>
      intro ret c
      have hblock := runsC_itemAtBlock a i os c
      have hrest := ih (ret ++ [os.displayOf (.arrayItem i)]) (c + 2)
      simp only [collectLoop]
      refine RunsC.congr (RunsC.bind hblock hrest) ?_ ?_ ?_
      · simp
      · simp [loopTrace]
      · simp only [List.length_cons]
        omega

/-- The multi-select extraction block: GetResults populates the array
pointer, GetCount, the collection loop, and the scope releases the array. -/
theorem runsC_resultsBlock (pdlg : Nat) (os : OSModel) (c : Nat) :
    RunsC (_get_pIShellItemArray fun s => do
        let psia ← mGetResults pdlg s
        let count ← mGetCount psia
        let ret ← collectLoop psia (List.range count) []
        pure (some ret)) os c
      (.ok (some ((List.range os.resultCount).map fun i =>
        os.displayOf (.arrayItem i))))
      ([.getResults pdlg, .acquire .itemArray (c + 1), .getCount (c + 1)]
        ++ loopTrace (c + 1) (c + 2) (List.range os.resultCount)
        ++ [.release .itemArray (c + 1)]) (c + 2 + 2 * os.resultCount) := by
  rw [arrayScope_eq_itemScope]
  apply runsC_itemScope_populated ⟨c + 1, .itemArray, .dlgResults⟩
  intro sl
  obtain ⟨f, hl, hlc, hlp⟩ :=
    runsC_collectLoop ⟨c + 1, .itemArray, .dlgResults⟩ os
      (List.range os.resultCount) [] (c + 2)
      (fun n => if n = c then some ⟨c + 1, .itemArray, .dlgResults⟩ else sl n)
  refine ⟨f, ?_, by omega, ?_, ?_⟩
  · simp only [bind_apply, mGetResults, mGetCount, pure_apply, hl,
      List.nil_append, List.length_range]
    simp [List.append_assoc]
  · rw [hlp c (by omega)]
    simp
  · intro n hn
    rw [hlp n (by omega)]
    simp [Nat.ne_of_lt hn]

/-- The optional `initialdir` configure step as written in the three
file-name dialogs. -/
theorem runsC_idirStep (idir : Option String) (os : OSModel) (c : Nat) :
    RunsC (if strTruthy idir then
        _get_pIShellItem fun s => do
          let pitem ← mSHCreateItemFromParsingName (idir.getD "") s
          mSetFolder 0 pitem
      else pure ()) os c (.ok ())
      (if strTruthy idir then setFolderStep (idir.getD "") c else [])
      (if strTruthy idir then c + 2 else c) := by
  cases hi : strTruthy idir <;>
    simp only [if_true, if_false, Bool.false_eq_true, ite_true, ite_false]
  · exact runsC_pure () os c
  · exact RunsC.congr (runsC_setFolderBlock 0 (idir.getD "") os c) rfl
      (by simp [setFolderStep]) rfl

/-- The optional `initialfile` configure step. -/
theorem runsC_ifileStep (ifile : Option String) (os : OSModel) (c : Nat) :
    RunsC (if strTruthy ifile then mSetFileName 0 (ifile.getD "") else pure ())
      os c (.ok ())
      (if strTruthy ifile then [.setFileName 0 (ifile.getD "")] else []) c := by
  cases hf : strTruthy ifile <;>
    simp only [if_true, if_false, Bool.false_eq_true, ite_true, ite_false]
  · exact runsC_pure () os c
  · exact runsC_mSetFileName 0 (ifile.getD "") os c

/-- The optional `filetypes` configure step. -/
theorem runsC_ftStep (fts : List (String × String)) (os : OSModel) (c : Nat) :
    RunsC (if fts.isEmpty then pure ()
      else do
        mSetFileTypes 0 fts.length (marshalFiletypes fts)
        mSetDefaultExtension 0 "") os c (.ok ())
      (if fts.isEmpty then []
       else [.setFileTypes 0 fts.length (marshalFiletypes fts),
             .setDefaultExtension 0 ""]) c := by
  cases hft : fts.isEmpty <;>
    simp only [if_true, if_false, Bool.false_eq_true, ite_true, ite_false]
  · exact RunsC.congr (RunsC.bind
      (runsC_mSetFileTypes 0 fts.length (marshalFiletypes fts) os c)
      (runsC_mSetDefaultExtension 0 "" os c)) rfl (by simp) rfl
  · exact runsC_pure () os c

/-- Full run of `askdirectory`: value and trace for every oracle and
argument combination. -/
theorem askdirectory_runs (hwnd : Option Nat) (idir : Option String) (os : OSModel) :
    ∃ c2, RunsC (askdirectory hwnd idir) os 0
      (.ok (if os.showFails then none else some (os.displayOf .dlgResult)))
      (askdirectorySeq hwnd idir os) c2 := by
  unfold askdirectory askdirectorySeq
  cases hs : os.showFails <;>
    simp only [hs, Bool.false_eq_true, ite_true, ite_false, eq_self_iff_true,
      if_true, if_false]
  · refine ⟨_, RunsC.congr (runsC_COM (runsC_getPIFileOpenDialog
      (RunsC.bind (runsC_mGetOptions 0 os 1)
        (RunsC.bind (runsC_mSetOptions 0 (os.options ||| FOS_PICKFOLDERS) os 1)
          (RunsC.bind (runsC_idirStep idir os 1)
            (RunsC.bind (runsC_tryShow_ok 0 hwnd os (if strTruthy idir then 3 else 1) hs)
              (runsC_extractBlock 0 os (if strTruthy idir then 3 else 1)))))))) rfl ?_ rfl⟩
    simp [comInitStep, createDialogStep, showStep, extractResultStep,
      releaseDialogStep, comUninitStep, List.append_assoc]
  · refine ⟨_, RunsC.congr (runsC_COM (runsC_getPIFileOpenDialog
      (RunsC.bind (runsC_mGetOptions 0 os 1)
        (RunsC.bind (runsC_mSetOptions 0 (os.options ||| FOS_PICKFOLDERS) os 1)
          (RunsC.bind (runsC_idirStep idir os 1)
            (RunsC.bind (runsC_tryShow_fail 0 hwnd os (if strTruthy idir then 3 else 1) hs)
              (runsC_pure none os (if strTruthy idir then 3 else 1)))))))) rfl ?_ rfl⟩
    simp [comInitStep, createDialogStep, showStep, releaseDialogStep,
      comUninitStep, List.append_assoc]

/-- Full run of `askopenfilename`. -/
theorem askopenfilename_runs (hwnd : Option Nat) (idir ifile : Option String)
    (fts : List (String × String)) (os : OSModel) :
    ∃ c2, RunsC (askopenfilename hwnd idir ifile fts) os 0
      (.ok (if os.showFails then none else some (os.displayOf .dlgResult)))
      (askopenfilenameSeq hwnd idir ifile fts os) c2 := by
  unfold askopenfilename askopenfilenameSeq
  cases hs : os.showFails <;>
    simp only [hs, Bool.false_eq_true, ite_true, ite_false, eq_self_iff_true,
      if_true, if_false]
  · refine ⟨_, RunsC.congr (runsC_COM (runsC_getPIFileOpenDialog
      (RunsC.bind (runsC_idirStep idir os 1)
        (RunsC.bind (runsC_ifileStep ifile os (if strTruthy idir then 3 else 1))
          (RunsC.bind (runsC_ftStep fts os (if strTruthy idir then 3 else 1))
            (RunsC.bind (runsC_tryShow_ok 0 hwnd os (if strTruthy idir then 3 else 1) hs)
              (runsC_extractBlock 0 os (if strTruthy idir then 3 else 1)))))))) rfl ?_ rfl⟩
    simp [comInitStep, createDialogStep, configFileSeq, showStep,
      extractResultStep, releaseDialogStep, comUninitStep, List.append_assoc]
  · refine ⟨_, RunsC.congr (runsC_COM (runsC_getPIFileOpenDialog
      (RunsC.bind (runsC_idirStep idir os 1)
        (RunsC.bind (runsC_ifileStep ifile os (if strTruthy idir then 3 else 1))
          (RunsC.bind (runsC_ftStep fts os (if strTruthy idir then 3 else 1))
            (RunsC.bind (runsC_tryShow_fail 0 hwnd os (if strTruthy idir then 3 else 1) hs)
              (runsC_pure none os (if strTruthy idir then 3 else 1)))))))) rfl ?_ rfl⟩
    simp [comInitStep, createDialogStep, configFileSeq, showStep,
      releaseDialogStep, comUninitStep, List.append_assoc]

/-- Full run of `asksaveasfilename`. -/
theorem asksaveasfilename_runs (hwnd : Option Nat) (idir ifile : Option String)
    (fts : List (String × String)) (os : OSModel) :
    ∃ c2, RunsC (asksaveasfilename hwnd idir ifile fts) os 0
      (.ok (if os.showFails then none else some (os.displayOf .dlgResult)))
      (asksaveasfilenameSeq hwnd idir ifile fts os) c2 := by
  unfold asksaveasfilename asksaveasfilenameSeq
  cases hs : os.showFails <;>
    simp only [hs, Bool.false_eq_true, ite_true, ite_false, eq_self_iff_true,
      if_true, if_false]
  · refine ⟨_, RunsC.congr (runsC_COM (runsC_getPIFileSaveDialog
      (RunsC.bind (runsC_idirStep idir os 1)
        (RunsC.bind (runsC_ifileStep ifile os (if strTruthy idir then 3 else 1))
          (RunsC.bind (runsC_ftStep fts os (if strTruthy idir then 3 else 1))
            (RunsC.bind (runsC_tryShow_ok 0 hwnd os (if strTruthy idir then 3 else 1) hs)
              (runsC_extractBlock 0 os (if strTruthy idir then 3 else 1)))))))) rfl ?_ rfl⟩
    simp [comInitStep, createDialogStep, configFileSeq, showStep,
      extractResultStep, releaseDialogStep, comUninitStep, List.append_assoc]
  · refine ⟨_, RunsC.congr (runsC_COM (runsC_getPIFileSaveDialog
      (RunsC.bind (runsC_idirStep idir os 1)
        (RunsC.bind (runsC_ifileStep ifile os (if strTruthy idir then 3 else 1))
          (RunsC.bind (runsC_ftStep fts os (if strTruthy idir then 3 else 1))
            (RunsC.bind (runsC_tryShow_fail 0 hwnd os (if strTruthy idir then 3 else 1) hs)
              (runsC_pure none os (if strTruthy idir then 3 else 1)))))))) rfl ?_ rfl⟩
    simp [comInitStep, createDialogStep, configFileSeq, showStep,
      releaseDialogStep, comUninitStep, List.append_assoc]

/-- Full run of `askopenfilenames`. -/
theorem askopenfilenames_runs (hwnd : Option Nat) (idir ifile : Option String)
    (fts : List (String × String)) (os : OSModel) :
    ∃ c2, RunsC (askopenfilenames hwnd idir ifile fts) os 0
      (.ok (if os.showFails then none
        else some ((List.range os.resultCount).map fun i =>
          os.displayOf (.arrayItem i))))
      (askopenfilenamesSeq hwnd idir ifile fts os) c2 := by
  unfold askopenfilenames askopenfilenamesSeq
  cases hs : os.showFails <;>
    simp only [hs, Bool.false_eq_true, ite_true, ite_false, eq_self_iff_true,
      if_true, if_false]
  · refine ⟨_, RunsC.congr (runsC_COM (runsC_getPIFileOpenDialog
      (RunsC.bind (runsC_mGetOptions 0 os 1)
        (RunsC.bind (runsC_mSetOptions 0 (os.options ||| FOS_ALLOWMULTISELECT) os 1)
          (RunsC.bind (runsC_idirStep idir os 1)
            (RunsC.bind (runsC_ifileStep ifile os (if strTruthy idir then 3 else 1))
              (RunsC.bind (runsC_ftStep fts os (if strTruthy idir then 3 else 1))
                (RunsC.bind (runsC_tryShow_ok 0 hwnd os (if strTruthy idir then 3 else 1) hs)
                  (runsC_resultsBlock 0 os (if strTruthy idir then 3 else 1)))))))))) rfl ?_ rfl⟩
    simp [comInitStep, createDialogStep, configFileSeq, showStep,
      extractResultsStep, releaseDialogStep, comUninitStep, List.append_assoc]
  · refine ⟨_, RunsC.congr (runsC_COM (runsC_getPIFileOpenDialog
      (RunsC.bind (runsC_mGetOptions 0 os 1)
        (RunsC.bind (runsC_mSetOptions 0 (os.options ||| FOS_ALLOWMULTISELECT) os 1)
          (RunsC.bind (runsC_idirStep idir os 1)
            (RunsC.bind (runsC_ifileStep ifile os (if strTruthy idir then 3 else 1))
              (RunsC.bind (runsC_ftStep fts os (if strTruthy idir then 3 else 1))
                (RunsC.bind (runsC_tryShow_fail 0 hwnd os (if strTruthy idir then 3 else 1) hs)
                  (runsC_pure none os (if strTruthy idir then 3 else 1)))))))))) rfl ?_ rfl⟩
    simp [comInitStep, createDialogStep, configFileSeq, showStep,
      releaseDialogStep, comUninitStep, List.append_assoc]

/-!
Trace and value projections of the four wrapper functions, and counting
lemmas over the multi-select loop trace.
-/

theorem askdirectory_trace (hwnd : Option Nat) (idir : Option String)
    (os : OSModel) (sl : Nat → Option Ref) :
    (askdirectory hwnd idir os ⟨0, sl⟩).2.1 = askdirectorySeq hwnd idir os := by
  obtain ⟨c2, h⟩ := askdirectory_runs hwnd idir os
  obtain ⟨f, heq, -, -⟩ := h sl
  rw [heq]

theorem askdirectory_value (hwnd : Option Nat) (idir : Option String)
    (os : OSModel) (sl : Nat → Option Ref) :
    (askdirectory hwnd idir os ⟨0, sl⟩).1
      = .ok (if os.showFails then none else some (os.displayOf .dlgResult)) := by
  obtain ⟨c2, h⟩ := askdirectory_runs hwnd idir os
  obtain ⟨f, heq, -, -⟩ := h sl
  rw [heq]

theorem askopenfilename_trace (hwnd : Option Nat) (idir ifile : Option String)
    (fts : List (String × String)) (os : OSModel) (sl : Nat → Option Ref) :
    (askopenfilename hwnd idir ifile fts os ⟨0, sl⟩).2.1
      = askopenfilenameSeq hwnd idir ifile fts os := by
  obtain ⟨c2, h⟩ := askopenfilename_runs hwnd idir ifile fts os
  obtain ⟨f, heq, -, -⟩ := h sl
  rw [heq]

theorem askopenfilename_value (hwnd : Option Nat) (idir ifile : Option String)
    (fts : List (String × String)) (os : OSModel) (sl : Nat → Option Ref) :
    (askopenfilename hwnd idir ifile fts os ⟨0, sl⟩).1
      = .ok (if os.showFails then none else some (os.displayOf .dlgResult)) := by
  obtain ⟨c2, h⟩ := askopenfilename_runs hwnd idir ifile fts os
  obtain ⟨f, heq, -, -⟩ := h sl
  rw [heq]

theorem asksaveasfilename_trace (hwnd : Option Nat) (idir ifile : Option String)
    (fts : List (String × String)) (os : OSModel) (sl : Nat → Option Ref) :
    (asksaveasfilename hwnd idir ifile fts os ⟨0, sl⟩).2.1
      = asksaveasfilenameSeq hwnd idir ifile fts os := by
  obtain ⟨c2, h⟩ := asksaveasfilename_runs hwnd idir ifile fts os
  obtain ⟨f, heq, -, -⟩ := h sl
  rw [heq]

theorem asksaveasfilename_value (hwnd : Option Nat) (idir ifile : Option String)
    (fts : List (String × String)) (os : OSModel) (sl : Nat → Option Ref) :
    (asksaveasfilename hwnd idir ifile fts os ⟨0, sl⟩).1
      = .ok (if os.showFails then none else some (os.displayOf .dlgResult)) := by
  obtain ⟨c2, h⟩ := asksaveasfilename_runs hwnd idir ifile fts os
  obtain ⟨f, heq, -, -⟩ := h sl
  rw [heq]

theorem askopenfilenames_trace (hwnd : Option Nat) (idir ifile : Option String)
    (fts : List (String × String)) (os : OSModel) (sl : Nat → Option Ref) :
    (askopenfilenames hwnd idir ifile fts os ⟨0, sl⟩).2.1
      = askopenfilenamesSeq hwnd idir ifile fts os := by
  obtain ⟨c2, h⟩ := askopenfilenames_runs hwnd idir ifile fts os
  obtain ⟨f, heq, -, -⟩ := h sl
  rw [heq]

theorem askopenfilenames_value (hwnd : Option Nat) (idir ifile : Option String)
    (fts : List (String × String)) (os : OSModel) (sl : Nat → Option Ref) :
    (askopenfilenames hwnd idir ifile fts os ⟨0, sl⟩).1
      = .ok (if os.showFails then none
        else some ((List.range os.resultCount).map fun i =>
          os.displayOf (.arrayItem i))) := by
  obtain ⟨c2, h⟩ := askopenfilenames_runs hwnd idir ifile fts os
  obtain ⟨f, heq, -, -⟩ := h sl
  rw [heq]

theorem loopTrace_count_free (arr : Nat) :
    ∀ (l : List Nat) (c : Nat),
    (loopTrace arr c l).count Ev.coTaskMemFree = l.length := by
  intro l
  induction l with
  | nil => intro c; simp [loopTrace]
  | cons i rest ih =>
      intro c
      simp [loopTrace, List.count_append, List.count_cons, ih]

theorem loopTrace_acquires (arr : Nat) :
    ∀ (l : List Nat) (c : Nat), acquires (loopTrace arr c l) = loopRefs c l := by
  intro l
  induction l with
  | nil => intro c; simp [loopTrace, loopRefs, acquires]
  | cons i rest ih =>
      intro c
      simp [loopTrace, loopRefs, acquires, List.filterMap_append] at ih ⊢
      exact ih (c + 2)

theorem loopTrace_releases (arr : Nat) :
    ∀ (l : List Nat) (c : Nat), releases (loopTrace arr c l) = loopRefs c l := by
  intro l
  induction l with
  | nil => intro c; simp [loopTrace, loopRefs, releases]
  | cons i rest ih =>
      intro c
      simp [loopTrace, loopRefs, releases, List.filterMap_append] at ih ⊢
      exact ih (c + 2)

theorem loopRefs_mem : ∀ (l : List Nat) (c : Nat) (p : Kind × Nat),
    p ∈ loopRefs c l → p.1 = Kind.item ∧ c < p.2 := by
  intro l
  induction l with
  | nil => intro c p hp; simp [loopRefs] at hp
  | cons i rest ih =>
      intro c p hp
      simp only [loopRefs, List.mem_cons] at hp
      rcases hp with hp | hp
      · subst hp; exact ⟨rfl, by omega⟩
      · obtain ⟨h1, h2⟩ := ih (c + 2) p hp
        exact ⟨h1, by omega⟩

theorem loopRefs_nodup : ∀ (l : List Nat) (c : Nat), (loopRefs c l).Nodup := by
  intro l
  induction l with
  | nil => intro c; simp [loopRefs]
  | cons i rest ih =>
      intro c
      simp only [loopRefs, List.nodup_cons]
      refine ⟨fun hmem => ?_, ih (c + 2)⟩
      obtain ⟨-, h2⟩ := loopRefs_mem rest (c + 2) _ hmem
      omega

theorem askdirectorySeq_count_free (hwnd : Option Nat) (idir : Option String)
    (os : OSModel) (h : os.showFails = false) :
    (askdirectorySeq hwnd idir os).count Ev.coTaskMemFree = 1 := by
  unfold askdirectorySeq comInitStep createDialogStep setFolderStep showStep
    extractResultStep releaseDialogStep comUninitStep
  cases hi : strTruthy idir <;>
    simp [h, List.count_append, List.count_cons]

theorem askopenfilenameSeq_count_free (hwnd : Option Nat) (idir ifile : Option String)
    (fts : List (String × String)) (os : OSModel) (h : os.showFails = false) :
    (askopenfilenameSeq hwnd idir ifile fts os).count Ev.coTaskMemFree = 1 := by
  unfold askopenfilenameSeq comInitStep createDialogStep configFileSeq
    setFolderStep showStep extractResultStep releaseDialogStep comUninitStep
  cases hi : strTruthy idir <;> cases hf : strTruthy ifile <;>
    cases hft : fts.isEmpty <;>
      simp [h, List.count_append, List.count_cons]

theorem asksaveasfilenameSeq_count_free (hwnd : Option Nat) (idir ifile : Option String)
    (fts : List (String × String)) (os : OSModel) (h : os.showFails = false) :
    (asksaveasfilenameSeq hwnd idir ifile fts os).count Ev.coTaskMemFree = 1 := by
  unfold asksaveasfilenameSeq comInitStep createDialogStep configFileSeq
    setFolderStep showStep extractResultStep releaseDialogStep comUninitStep
  cases hi : strTruthy idir <;> cases hf : strTruthy ifile <;>
    cases hft : fts.isEmpty <;>
      simp [h, List.count_append, List.count_cons]

theorem askopenfilenamesSeq_count_free (hwnd : Option Nat) (idir ifile : Option String)
    (fts : List (String × String)) (os : OSModel) (h : os.showFails = false) :
    (askopenfilenamesSeq hwnd idir ifile fts os).count Ev.coTaskMemFree
      = os.resultCount := by
  unfold askopenfilenamesSeq comInitStep createDialogStep configFileSeq
    setFolderStep showStep extractResultsStep releaseDialogStep comUninitStep
  cases hi : strTruthy idir <;> cases hf : strTruthy ifile <;>
    cases hft : fts.isEmpty <;>
      simp [h, List.count_append, List.count_cons, loopTrace_count_free,
        List.length_range]

/-- C1: if the dialog's `Show` call raises an OS error (which covers the
user pressing Cancel as well as failure codes), each of the four file-dialog
functions returns `None`; cancellation and failure are treated identically
as the empty result. -/
theorem C1_show_error_returns_none (hwnd : Option Nat) (idir ifile : Option String)
    (fts : List (String × String)) (os : OSModel) (sl : Nat → Option Ref)
    (h : os.showFails = true) :
    (askdirectory hwnd idir os ⟨0, sl⟩).1 = .ok none ∧
    (askopenfilename hwnd idir ifile fts os ⟨0, sl⟩).1 = .ok none ∧
    (askopenfilenames hwnd idir ifile fts os ⟨0, sl⟩).1 = .ok none ∧
    (asksaveasfilename hwnd idir ifile fts os ⟨0, sl⟩).1 = .ok none := by
  refine ⟨?_, ?_, ?_, ?_⟩ <;>
    simp [askdirectory_value, askopenfilename_value, askopenfilenames_value,
      asksaveasfilename_value, h]

theorem C1_witness :
    osCancel.showFails = true ∧
    ((askdirectory none none osCancel ⟨0, fun _ => none⟩).1 = .ok none ∧
     (askopenfilename none none none [] osCancel ⟨0, fun _ => none⟩).1 = .ok none ∧
     (askopenfilenames none none none [] osCancel ⟨0, fun _ => none⟩).1 = .ok none ∧
     (asksaveasfilename none none none [] osCancel ⟨0, fun _ => none⟩).1 = .ok none) :=
  ⟨rfl, C1_show_error_returns_none none none none [] osCancel (fun _ => none) rfl⟩

/-- C3: every file-dialog function performs its COM calls in the fixed
order: initialize COM, create the dialog instance, configure options
(folder / filename / filetypes / option flags), show the dialog, extract
the result, release the interfaces (then uninitialize COM); its trace
equals the corresponding fixed sequence, so no step is reordered or
repeated. -/
theorem C3_fixed_call_sequence (hwnd : Option Nat) (idir ifile : Option String)
    (fts : List (String × String)) (os : OSModel) (sl : Nat → Option Ref) :
    (askdirectory hwnd idir os ⟨0, sl⟩).2.1 = askdirectorySeq hwnd idir os ∧
    (askopenfilename hwnd idir ifile fts os ⟨0, sl⟩).2.1
      = askopenfilenameSeq hwnd idir ifile fts os ∧
    (askopenfilenames hwnd idir ifile fts os ⟨0, sl⟩).2.1
      = askopenfilenamesSeq hwnd idir ifile fts os ∧
    (asksaveasfilename hwnd idir ifile fts os ⟨0, sl⟩).2.1
      = asksaveasfilenameSeq hwnd idir ifile fts os :=
  ⟨askdirectory_trace hwnd idir os sl,
   askopenfilename_trace hwnd idir ifile fts os sl,
   askopenfilenames_trace hwnd idir ifile fts os sl,
   asksaveasfilename_trace hwnd idir ifile fts os sl⟩

/-- C5: on every successful (non-cancelled) call, the returned path is the
file-system display name of the dialog's result item (for
`askopenfilenames`, the i-th element is the display name of item i of the
result array, for i ranging over the reported count), and the OS-allocated
buffer is freed via `CoTaskMemFree` exactly once per copied string. -/
theorem C5_extracts_display_names (hwnd : Option Nat) (idir ifile : Option String)
    (fts : List (String × String)) (os : OSModel) (sl : Nat → Option Ref)
    (h : os.showFails = false) :
    (askdirectory hwnd idir os ⟨0, sl⟩).1
      = .ok (some (os.displayOf .dlgResult)) ∧
    (askopenfilename hwnd idir ifile fts os ⟨0, sl⟩).1
      = .ok (some (os.displayOf .dlgResult)) ∧
    (asksaveasfilename hwnd idir ifile fts os ⟨0, sl⟩).1
      = .ok (some (os.displayOf .dlgResult)) ∧
    (askopenfilenames hwnd idir ifile fts os ⟨0, sl⟩).1
      = .ok (some ((List.range os.resultCount).map fun i =>
          os.displayOf (.arrayItem i))) ∧
    (askdirectory hwnd idir os ⟨0, sl⟩).2.1.count Ev.coTaskMemFree = 1 ∧
    (askopenfilename hwnd idir ifile fts os ⟨0, sl⟩).2.1.count Ev.coTaskMemFree = 1 ∧
    (asksaveasfilename hwnd idir ifile fts os ⟨0, sl⟩).2.1.count Ev.coTaskMemFree = 1 ∧
    (askopenfilenames hwnd idir ifile fts os ⟨0, sl⟩).2.1.count Ev.coTaskMemFree
      = os.resultCount := by
  refine ⟨?_, ?_, ?_, ?_, ?_, ?_, ?_, ?_⟩
  · simp [askdirectory_value, h]
  · simp [askopenfilename_value, h]
  · simp [asksaveasfilename_value, h]
  · simp [askopenfilenames_value, h]
  · rw [askdirectory_trace]; exact askdirectorySeq_count_free hwnd idir os h
  · rw [askopenfilename_trace]
    exact askopenfilenameSeq_count_free hwnd idir ifile fts os h
  · rw [asksaveasfilename_trace]
    exact asksaveasfilenameSeq_count_free hwnd idir ifile fts os h
  · rw [askopenfilenames_trace]
    exact askopenfilenamesSeq_count_free hwnd idir ifile fts os h

theorem C5_witness :
    osW.showFails = false ∧
    (askopenfilenames none none none [] osW ⟨0, fun _ => none⟩).1
      = .ok (some ((List.range osW.resultCount).map fun i =>
          osW.displayOf (.arrayItem i))) :=
  ⟨rfl, (C5_extracts_display_names none none none [] osW (fun _ => none)
      rfl).2.2.2.1⟩

theorem acquires_append (t1 t2 : List Ev) :
    acquires (t1 ++ t2) = acquires t1 ++ acquires t2 := by
  induction t1 with
  | nil => simp [acquires]
  | cons e t ih => cases e <;> simp [acquires, ih]

theorem releases_append (t1 t2 : List Ev) :
    releases (t1 ++ t2) = releases t1 ++ releases t2 := by
  induction t1 with
  | nil => simp [releases]
  | cons e t ih => cases e <;> simp [releases, ih]

theorem setFileTypeEvents_append (t1 t2 : List Ev) :
    setFileTypeEvents (t1 ++ t2)
      = setFileTypeEvents t1 ++ setFileTypeEvents t2 := by
  induction t1 with
  | nil => simp [setFileTypeEvents]
  | cons e t ih => cases e <;> simp [setFileTypeEvents, ih]

theorem loopTrace_count_coInit (arr fl : Nat) :
    ∀ (l : List Nat) (c : Nat), (loopTrace arr c l).count (Ev.coInit fl) = 0 := by
  intro l
  induction l with
  | nil => intro c; simp [loopTrace]
  | cons i rest ih => intro c; simp [loopTrace, List.count_append, ih]

theorem loopTrace_count_coUninit (arr : Nat) :
    ∀ (l : List Nat) (c : Nat), (loopTrace arr c l).count Ev.coUninit = 0 := by
  intro l
  induction l with
  | nil => intro c; simp [loopTrace]
  | cons i rest ih => intro c; simp [loopTrace, List.count_append, ih]

theorem loopTrace_setFileTypes (arr : Nat) :
    ∀ (l : List Nat) (c : Nat), setFileTypeEvents (loopTrace arr c l) = [] := by
  intro l
  induction l with
  | nil => intro c; simp [loopTrace, setFileTypeEvents]
  | cons i rest ih =>
      intro c
      simp [loopTrace, setFileTypeEvents, setFileTypeEvents_append, ih]

theorem loopRefs_not_mem (l : List Nat) (c : Nat) (k : Kind) (i : Nat)
    (h : k ≠ Kind.item ∨ i ≤ c) : (k, i) ∉ loopRefs c l := by
  intro hm
  obtain ⟨h1, h2⟩ := loopRefs_mem l c (k, i) hm
  rcases h with h | h
  · exact h h1
  · simp only at h2
    omega

theorem askdirectorySeq_releasedOnce (hwnd : Option Nat) (idir : Option String)
    (os : OSModel) : releasedOnce (askdirectorySeq hwnd idir os) := by
  unfold askdirectorySeq comInitStep createDialogStep setFolderStep showStep
    extractResultStep releaseDialogStep comUninitStep
  cases hi : strTruthy idir <;> cases hs : os.showFails <;>
    simp only [if_true, if_false, Bool.false_eq_true, ite_true, ite_false] <;>
    refine ⟨?_, ?_, ?_, ?_⟩ <;>
    simp [acquires, releases, acquires_append, releases_append,
      List.count_cons, List.count_append] <;>
    decide

theorem askopenfilenameSeq_releasedOnce (hwnd : Option Nat)
    (idir ifile : Option String) (fts : List (String × String)) (os : OSModel) :
    releasedOnce (askopenfilenameSeq hwnd idir ifile fts os) := by
  unfold askopenfilenameSeq comInitStep createDialogStep configFileSeq
    setFolderStep showStep extractResultStep releaseDialogStep comUninitStep
  cases hi : strTruthy idir <;> cases hs : os.showFails <;>
    simp only [if_true, if_false, Bool.false_eq_true, ite_true, ite_false] <;>
    refine ⟨?_, ?_, ?_, ?_⟩ <;>
    simp [acquires, releases, acquires_append, releases_append,
      apply_ite acquires, apply_ite releases,
      apply_ite (List.count
        (Ev.coInit (COINIT_APARTMENTTHREADED ||| COINIT_DISABLE_OLE1DDE))),
      apply_ite (List.count Ev.coUninit),
      List.count_cons, List.count_append] <;>
    decide

theorem asksaveasfilenameSeq_releasedOnce (hwnd : Option Nat)
    (idir ifile : Option String) (fts : List (String × String)) (os : OSModel) :
    releasedOnce (asksaveasfilenameSeq hwnd idir ifile fts os) := by
  unfold asksaveasfilenameSeq comInitStep createDialogStep configFileSeq
    setFolderStep showStep extractResultStep releaseDialogStep comUninitStep
  cases hi : strTruthy idir <;> cases hs : os.showFails <;>
    simp only [if_true, if_false, Bool.false_eq_true, ite_true, ite_false] <;>
    refine ⟨?_, ?_, ?_, ?_⟩ <;>
    simp [acquires, releases, acquires_append, releases_append,
      apply_ite acquires, apply_ite releases,
      apply_ite (List.count
        (Ev.coInit (COINIT_APARTMENTTHREADED ||| COINIT_DISABLE_OLE1DDE))),
      apply_ite (List.count Ev.coUninit),
      List.count_cons, List.count_append] <;>
    decide

theorem askopenfilenamesSeq_releasedOnce (hwnd : Option Nat)
    (idir ifile : Option String) (fts : List (String × String)) (os : OSModel) :
    releasedOnce (askopenfilenamesSeq hwnd idir ifile fts os) := by
  unfold askopenfilenamesSeq comInitStep createDialogStep configFileSeq
    setFolderStep showStep extractResultsStep releaseDialogStep comUninitStep
  cases hi : strTruthy idir <;> cases hs : os.showFails <;>
    simp only [if_true, if_false, Bool.false_eq_true, ite_true, ite_false]
  · refine ⟨?_, ?_, ?_, ?_⟩
    · rw [List.perm_iff_count]
      intro x
      simp [acquires, releases, acquires_append, releases_append,
        apply_ite acquires, apply_ite releases, loopTrace_acquires,
        loopTrace_releases, List.count_append, List.count_cons]
      omega
    · simp [acquires, acquires_append, apply_ite acquires, loopTrace_acquires]
      exact ⟨loopRefs_not_mem _ _ _ _ (Or.inl (by decide)),
        loopRefs_not_mem _ _ _ _ (Or.inr (by omega)),
        loopRefs_nodup _ _⟩
    · simp [List.count_append, List.count_cons, loopTrace_count_coInit,
        apply_ite (List.count
          (Ev.coInit (COINIT_APARTMENTTHREADED ||| COINIT_DISABLE_OLE1DDE)))]
    · simp [List.count_append, List.count_cons, loopTrace_count_coUninit,
        apply_ite (List.count Ev.coUninit)]
  · refine ⟨?_, ?_, ?_, ?_⟩ <;>
      simp [acquires, releases, acquires_append, releases_append,
        apply_ite acquires, apply_ite releases,
        apply_ite (List.count
          (Ev.coInit (COINIT_APARTMENTTHREADED ||| COINIT_DISABLE_OLE1DDE))),
        apply_ite (List.count Ev.coUninit),
        List.count_cons, List.count_append] <;>
      decide
  · refine ⟨?_, ?_, ?_, ?_⟩
    · rw [List.perm_iff_count]
      intro x
      simp [acquires, releases, acquires_append, releases_append,
        apply_ite acquires, apply_ite releases, loopTrace_acquires,
        loopTrace_releases, List.count_append, List.count_cons]
      omega
    · simp [acquires, acquires_append, apply_ite acquires, loopTrace_acquires]
      exact ⟨loopRefs_not_mem _ _ _ _ (Or.inl (by decide)),
        loopRefs_not_mem _ _ _ _ (Or.inr (by omega)),
        loopRefs_not_mem _ _ _ _ (Or.inl (by decide)),
        loopRefs_nodup _ _⟩
    · simp [List.count_append, List.count_cons, loopTrace_count_coInit,
        apply_ite (List.count
          (Ev.coInit (COINIT_APARTMENTTHREADED ||| COINIT_DISABLE_OLE1DDE)))]
    · simp [List.count_append, List.count_cons, loopTrace_count_coUninit,
        apply_ite (List.count Ev.coUninit)]
  · refine ⟨?_, ?_, ?_, ?_⟩ <;>
      simp [acquires, releases, acquires_append, releases_append,
        apply_ite acquires, apply_ite releases,
        apply_ite (List.count
          (Ev.coInit (COINIT_APARTMENTTHREADED ||| COINIT_DISABLE_OLE1DDE))),
        apply_ite (List.count Ev.coUninit),
        List.count_cons, List.count_append] <;>
      decide

/-- C2: in every call to each of the four file-dialog functions, every COM
interface reference acquired during the call is released exactly once on
every exit path (the released references are a permutation of the acquired,
pairwise-distinct references), including the early-return path taken when
`Show` raises; COM is initialized and uninitialized exactly once. -/
theorem C2_release_exactly_once (hwnd : Option Nat) (idir ifile : Option String)
    (fts : List (String × String)) (os : OSModel) (sl : Nat → Option Ref) :
    releasedOnce (askdirectory hwnd idir os ⟨0, sl⟩).2.1 ∧
    releasedOnce (askopenfilename hwnd idir ifile fts os ⟨0, sl⟩).2.1 ∧
    releasedOnce (askopenfilenames hwnd idir ifile fts os ⟨0, sl⟩).2.1 ∧
    releasedOnce (asksaveasfilename hwnd idir ifile fts os ⟨0, sl⟩).2.1 := by
  refine ⟨?_, ?_, ?_, ?_⟩
  · rw [askdirectory_trace]
    exact askdirectorySeq_releasedOnce hwnd idir os
  · rw [askopenfilename_trace]
    exact askopenfilenameSeq_releasedOnce hwnd idir ifile fts os
  · rw [askopenfilenames_trace]
    exact askopenfilenamesSeq_releasedOnce hwnd idir ifile fts os
  · rw [asksaveasfilename_trace]
    exact asksaveasfilenameSeq_releasedOnce hwnd idir ifile fts os

theorem askopenfilenameSeq_setFileTypes (hwnd : Option Nat)
    (idir ifile : Option String) (fts : List (String × String)) (os : OSModel)
    (h : fts.isEmpty = false) :
    setFileTypeEvents (askopenfilenameSeq hwnd idir ifile fts os)
      = [(fts.length, marshalFiletypes fts)] := by
  unfold askopenfilenameSeq comInitStep createDialogStep configFileSeq
    setFolderStep showStep extractResultStep releaseDialogStep comUninitStep
  cases hi : strTruthy idir <;> cases hs : os.showFails <;>
    simp [h, setFileTypeEvents, setFileTypeEvents_append,
      apply_ite setFileTypeEvents]

theorem asksaveasfilenameSeq_setFileTypes (hwnd : Option Nat)
    (idir ifile : Option String) (fts : List (String × String)) (os : OSModel)
    (h : fts.isEmpty = false) :
    setFileTypeEvents (asksaveasfilenameSeq hwnd idir ifile fts os)
      = [(fts.length, marshalFiletypes fts)] := by
  unfold asksaveasfilenameSeq comInitStep createDialogStep configFileSeq
    setFolderStep showStep extractResultStep releaseDialogStep comUninitStep
  cases hi : strTruthy idir <;> cases hs : os.showFails <;>
    simp [h, setFileTypeEvents, setFileTypeEvents_append,
      apply_ite setFileTypeEvents]

theorem askopenfilenamesSeq_setFileTypes (hwnd : Option Nat)
    (idir ifile : Option String) (fts : List (String × String)) (os : OSModel)
    (h : fts.isEmpty = false) :
    setFileTypeEvents (askopenfilenamesSeq hwnd idir ifile fts os)
      = [(fts.length, marshalFiletypes fts)] := by
  unfold askopenfilenamesSeq comInitStep createDialogStep configFileSeq
    setFolderStep showStep extractResultsStep releaseDialogStep comUninitStep
  cases hi : strTruthy idir <;> cases hs : os.showFails <;>
    simp [h, setFileTypeEvents, setFileTypeEvents_append, loopTrace_setFileTypes,
      apply_ite setFileTypeEvents]

/-- C4: for every non-empty `filetypes` list, each of the three file-name
dialogs invokes `SetFileTypes` exactly once, with count `filetypes.length`
and the marshalled array whose i-th entry has `pszName = filetypes[i].1` and
`pszSpec = filetypes[i].2`, preserving the caller's order. -/
theorem C4_filetypes_marshalled (hwnd : Option Nat) (idir ifile : Option String)
    (fts : List (String × String)) (os : OSModel) (sl : Nat → Option Ref)
    (hne : fts ≠ []) :
    setFileTypeEvents (askopenfilename hwnd idir ifile fts os ⟨0, sl⟩).2.1
      = [(fts.length, marshalFiletypes fts)] ∧
    setFileTypeEvents (askopenfilenames hwnd idir ifile fts os ⟨0, sl⟩).2.1
      = [(fts.length, marshalFiletypes fts)] ∧
    setFileTypeEvents (asksaveasfilename hwnd idir ifile fts os ⟨0, sl⟩).2.1
      = [(fts.length, marshalFiletypes fts)] ∧
    (marshalFiletypes fts).length = fts.length ∧
    ∀ i, (h1 : i < fts.length) → (h2 : i < (marshalFiletypes fts).length) →
      (marshalFiletypes fts)[i] = ⟨(fts[i]).1, (fts[i]).2⟩ := by
  have hft : fts.isEmpty = false := by
    cases fts
    · exact absurd rfl hne
    · rfl
  refine ⟨?_, ?_, ?_, ?_, ?_⟩
  · rw [askopenfilename_trace]
    exact askopenfilenameSeq_setFileTypes hwnd idir ifile fts os hft
  · rw [askopenfilenames_trace]
    exact askopenfilenamesSeq_setFileTypes hwnd idir ifile fts os hft
  · rw [asksaveasfilename_trace]
    exact asksaveasfilenameSeq_setFileTypes hwnd idir ifile fts os hft
  · simp [marshalFiletypes]
  · intro i h1 h2
    simp [marshalFiletypes, COMDLG_FILTERSPEC.from_tuple]

theorem C4_witness :
    ([("Text files", "*.txt")] : List (String × String)) ≠ [] ∧
    setFileTypeEvents (askopenfilename none none none [("Text files", "*.txt")]
        osW ⟨0, fun _ => none⟩).2.1
      = [(1, [COMDLG_FILTERSPEC.mk "Text files" "*.txt"])] := by
  refine ⟨by simp, ?_⟩
  have h := (C4_filetypes_marshalled none none none [("Text files", "*.txt")]
    osW (fun _ => none) (by simp)).1
  simpa [marshalFiletypes, COMDLG_FILTERSPEC.from_tuple] using h

theorem itemScope_release_iff_populated {α} (body : Nat → M α) (os : OSModel)
    (st : St) :
    (_get_pIShellItem body os st).2.1
      = (body st.ctr os ⟨st.ctr + 1, st.slots⟩).2.1
        ++ (match (body st.ctr os ⟨st.ctr + 1, st.slots⟩).2.2.slots st.ctr with
            | some r => [Ev.release r.kind r.id]
            | none => []) := by
  rcases hb : body st.ctr os ⟨st.ctr + 1, st.slots⟩ with ⟨r, t, st1⟩
  rcases hs2 : st1.slots st.ctr with _ | rr <;>
    cases r <;>
      simp [_get_pIShellItem, bind_apply, newSlot_apply, withFinally_apply,
        readSlot_apply, emit_apply, pure_apply, hb, hs2]

/-- C10: the shell-item and shell-item-array scope guards release only a
populated pointer: the guard's trace is the body's trace followed by one
Release of the reference the body stored in the pointer cell, and followed
by nothing at all when the cell is still NULL on scope exit (no Release is
ever invoked through a NULL interface pointer). -/
theorem C10_guard_release_only_if_populated {α} (body : Nat → M α)
    (os : OSModel) (st : St) :
    ((_get_pIShellItem body os st).2.1
      = (body st.ctr os ⟨st.ctr + 1, st.slots⟩).2.1
        ++ (match (body st.ctr os ⟨st.ctr + 1, st.slots⟩).2.2.slots st.ctr with
            | some r => [Ev.release r.kind r.id]
            | none => [])) ∧
    ((_get_pIShellItemArray body os st).2.1
      = (body st.ctr os ⟨st.ctr + 1, st.slots⟩).2.1
        ++ (match (body st.ctr os ⟨st.ctr + 1, st.slots⟩).2.2.slots st.ctr with
            | some r => [Ev.release r.kind r.id]
            | none => [])) :=
  ⟨itemScope_release_iff_populated body os st, by
    rw [arrayScope_eq_itemScope]
    exact itemScope_release_iff_populated body os st⟩

/-- C6: `taskdialog` passes its seven parameters directly and unmodified to
the OS `TaskDialog` call and, when the call succeeds, returns exactly the
button identifier the OS wrote through the `pnButton` out-parameter. -/
theorem C6_taskdialog_passthrough (os : MBModel) (h : os.fails = false)
    (hwndOwner hInstance pszWindowTitle pszMainInstruction pszContent : PyVal)
    (dwCommonButtons : Int) (pszIcon : PyVal) :
    taskdialog os hwndOwner hInstance pszWindowTitle pszMainInstruction
        pszContent dwCommonButtons pszIcon
      = (.ok os.button,
         [.taskDialogCall hwndOwner hInstance pszWindowTitle
            pszMainInstruction pszContent dwCommonButtons pszIcon]) := by
  simp [taskdialog, h]

theorem C6_witness :
    (MBModel.mk false 0x01).fails = false ∧
    taskdialog ⟨false, 0x01⟩ .vnone .vnone (.vstr "T") (.vstr "M") (.vstr "C")
        0x01 .vnone
      = (.ok 0x01,
         [.taskDialogCall .vnone .vnone (.vstr "T") (.vstr "M") (.vstr "C")
            0x01 .vnone]) :=
  ⟨rfl, C6_taskdialog_passthrough ⟨false, 0x01⟩ rfl .vnone .vnone (.vstr "T")
    (.vstr "M") (.vstr "C") 0x01 .vnone⟩

/-- C8: `askyesno` does not delegate to `askquestion` with its arguments in
the same positions: at hwnd = 5, title = "T", main_msg = "M",
message = "C", `askyesno` performs the TaskDialog call with the owner,
title, main instruction and content all shifted by one position, so the
displayed dialog differs from the one `askquestion` shows for the same
arguments. -/
theorem C8_askyesno_argument_shuffle :
    askyesno ⟨false, 0x06⟩ (.vint 5) (.vstr "T") (.vstr "M") (.vstr "C")
      = (.ok true,
         [.taskDialogCall (.vstr "T") .vnone (.vstr "M") (.vstr "C") (.vint 5)
            0x06 (.vint 32514)]) ∧
    askquestion ⟨false, 0x06⟩ (.vint 5) (.vstr "T") (.vstr "M") (.vstr "C")
      = (.ok true,
         [.taskDialogCall (.vint 5) .vnone (.vstr "T") (.vstr "M") (.vstr "C")
            0x06 (.vint 32514)]) ∧
    (askyesno ⟨false, 0x06⟩ (.vint 5) (.vstr "T") (.vstr "M") (.vstr "C")).2
      ≠ (askquestion ⟨false, 0x06⟩ (.vint 5) (.vstr "T") (.vstr "M")
          (.vstr "C")).2 := by
  refine ⟨rfl, rfl, by decide⟩

/-- C9: when the TaskDialog call succeeds, `askyesnocancel` returns true
exactly on IDYES (0x06), false exactly on IDNO (0x07), and None on every
other reported code; `askokcancel` returns true exactly on IDOK (0x01) and
false on every other code. -/
theorem C9_question_result_mapping (os : MBModel) (h : os.fails = false)
    (hwnd title main_msg message : PyVal) :
    ((askyesnocancel os hwnd title main_msg message).1 = .ok (some true)
        ↔ os.button = 0x06) ∧
    ((askyesnocancel os hwnd title main_msg message).1 = .ok (some false)
        ↔ os.button = 0x07) ∧
    (os.button ≠ 0x06 → os.button ≠ 0x07 →
      (askyesnocancel os hwnd title main_msg message).1 = .ok none) ∧
    ((askokcancel os hwnd title main_msg message).1 = .ok true
        ↔ os.button = 0x01) ∧
    (os.button ≠ 0x01 →
      (askokcancel os hwnd title main_msg message).1 = .ok false) := by
  unfold askyesnocancel askokcancel taskdialog
  simp only [h, Bool.false_eq_true, if_false, ite_false, Except.map]
  refine ⟨?_, ?_, ?_, ?_, ?_⟩ <;> split_ifs <;> simp_all

theorem C9_witness :
    (MBModel.mk false 0x06).fails = false ∧
    (askyesnocancel ⟨false, 0x06⟩ .vnone (.vstr "T") (.vstr "M")
        (.vstr "C")).1 = .ok (some true) :=
  ⟨rfl, (C9_question_result_mapping ⟨false, 0x06⟩ rfl .vnone (.vstr "T")
      (.vstr "M") (.vstr "C")).1.mpr rfl⟩
